import Mathlib

/-!
Shallow embedding of the voting backend (`src/main.py`, request models also in
`src/schemas.py`): items with derived scores, one-vote-per-identity protocol,
listing/ranking and stats. The database (two MongoDB collections, `votingitem`
and `vote`) is modelled as explicit state: a list of `(objectId, Item)` pairs
in insertion order and a list of `Vote` records. Timestamps are abstract `Nat`
instants passed in by the caller (the code calls `datetime.now`). Endpoint
handlers become pure functions returning the HTTP-level outcome together with
the post-state of the database, since a raised `HTTPException` aborts the
request but keeps every mutation already performed.
-/

namespace VotingApp

/-- An item document as stored in the `votingitem` collection
(`create_item` in `src/main.py` writes exactly these fields). -/
structure Item where
  title : String
  category : String
  description : Option String
  image : Option String
  link : Option String
  upvotes : Nat
  downvotes : Nat
  score : Int
  created_at : Nat
  updated_at : Nat
deriving Repr, DecidableEq

/-- A vote document as stored in the `vote` collection by `vote_item`
(`create_document("vote", ...)` in `src/main.py`). -/
structure Vote where
  item_id : String
  direction : String
  session_id : Option String
  user_id : Option String
deriving Repr, DecidableEq

/-- The body of `POST /api/items/{id}/vote` (`VoteRequest` in `src/main.py`).
`direction` is a string; the pydantic `Literal` restricts it to
`"up"`/`"down"` at the HTTP boundary. -/
structure VoteRequest where
  direction : String
  session_id : Option String
  user_id : Option String
deriving Repr, DecidableEq

/-- The body of `POST /api/items` (`ItemCreate` in `src/main.py`): plain
strings; only `category` is constrained (by the `AllowedCategory` Literal). -/
structure ItemCreate where
  title : String
  category : String
  description : Option String
  image : Option String
  link : Option String
deriving Repr, DecidableEq

/-- The mutable storage: the `votingitem` collection (pairs of generated
ObjectId string and document, in insertion order) and the `vote` collection. -/
structure DB where
  items : List (String × Item)
  votes : List Vote
deriving Repr, DecidableEq

/-- The empty database. -/
def DB.empty : DB := ⟨[], []⟩

/-- Python truthiness of an `Optional[str]`: `None` and `""` are falsy.
This is the test `if vote.session_id` / `if not vote.session_id` uses. -/
def pyTruthy : Option String → Bool
  | none => false
  | some s => !(s == "")

/-- A hexadecimal digit, as accepted by `bson.ObjectId`. -/
def isHexChar (c : Char) : Bool :=
  c.isDigit || (97 ≤ c.toNat && c.toNat ≤ 102) || (65 ≤ c.toNat && c.toNat ≤ 70)

/-- Whether `ObjectId(id_str)` succeeds for a string: a 24-character hex
string. The helper `oid` in `src/main.py` raises HTTP 400 otherwise. -/
def isValidObjectId (s : String) : Bool :=
  s.length == 24 && s.toList.all isHexChar

/-- The categories admitted by the `AllowedCategory` Literal in
`src/main.py`. -/
def allowedCategories : List String := ["websites", "tools", "apps", "ideas", "misc"]

/-- Request validation performed by FastAPI/pydantic for `POST /api/items`:
the `ItemCreate` model constrains only `category` (a Literal). `title` is a
plain `str` (the empty string is accepted) and `image`/`link` are plain
`Optional[str]` (no URL check in this model). -/
def validItemCreate (p : ItemCreate) : Bool :=
  allowedCategories.contains p.category

/-- The document `create_item` inserts: the payload fields plus counters
initialised to 0 and both timestamps set to now. -/
def mkItem (p : ItemCreate) (now : Nat) : Item :=
  ⟨p.title, p.category, p.description, p.image, p.link, 0, 0, 0, now, now⟩

/-- Outcome of `POST /api/items`: pydantic rejection is HTTP 422. -/
inductive CreateError where
  | validationError
deriving Repr, DecidableEq

/-- Handler of `POST /api/items` (`create_item` in `src/main.py`): if the
payload passes the pydantic model, insert the document with counters 0/0/0
and return its generated id; otherwise FastAPI answers 422 and the handler
never runs, so nothing is persisted. -/
def create_item (now : Nat) (newId : String) (db : DB) (p : ItemCreate) :
    Except CreateError String × DB :=
  if validItemCreate p then
    (Except.ok newId, { db with items := db.items ++ [(newId, mkItem p now)] })
  else
    (Except.error CreateError.validationError, db)

/-- The duplicate-vote filter built in `vote_item` (`src/main.py` lines
124-132): a stored vote matches when its `item_id` equals the request path id
and a retained `$or` branch matches. A branch `session_id == s` (resp.
`user_id == u`) is retained exactly when the request component is truthy
(non-None, non-empty); falsy components are dropped by the cleanup list
comprehension, so they never match anything. -/
def voteMatchesFilter (item_id : String) (req : VoteRequest) (v : Vote) : Bool :=
  v.item_id == item_id &&
    ((pyTruthy req.session_id && v.session_id == req.session_id) ||
     (pyTruthy req.user_id && v.user_id == req.user_id))

/-- Failure outcomes of `POST /api/items/{id}/vote`, in the order the code
can raise them: 400 missing identity, 409 duplicate, 400 invalid id (raised
by `oid` at the counter-update step), 404 item not found. -/
inductive VoteError where
  | missingIdentity
  | duplicate
  | invalidId
  | itemNotFound
deriving Repr, DecidableEq

/-- The vote record inserted by `create_document("vote", ...)`. -/
def mkVoteRecord (item_id : String) (req : VoteRequest) : Vote :=
  ⟨item_id, req.direction, req.session_id, req.user_id⟩

/-- The `$inc`/`$set` update applied to the item: up votes bump `upvotes` and
`score`, anything else (the Literal only admits "down") bumps `downvotes` and
decrements `score`; `updated_at` is set to now either way. -/
def applyInc (direction : String) (now : Nat) (it : Item) : Item :=
  if direction == "up" then
    { it with upvotes := it.upvotes + 1, score := it.score + 1, updated_at := now }
  else
    { it with downvotes := it.downvotes + 1, score := it.score - 1, updated_at := now }

/-- `update_one` on the `votingitem` collection: rewrite the first document
whose `_id` matches (ObjectIds are unique) and report the matched count. -/
def updateItems (items : List (String × Item)) (id : String) (f : Item → Item) :
    List (String × Item) × Nat :=
  match items with
  | [] => ([], 0)
  | (i, it) :: rest =>
    if i == id then ((i, f it) :: rest, 1)
    else ((i, it) :: (updateItems rest id f).1, (updateItems rest id f).2)

/-- The read-only prefix of the vote handler (`src/main.py` lines 120-136):
the identity presence check, then the duplicate lookup `find_one` on the raw
string `item_id`. Returns the error it raises, if any. No mutation occurs. -/
def voteCheckPhase (db : DB) (item_id : String) (req : VoteRequest) : Option VoteError :=
  if !pyTruthy req.session_id && !pyTruthy req.user_id then
    some VoteError.missingIdentity
  else if (db.votes.find? (voteMatchesFilter item_id req)).isSome then
    some VoteError.duplicate
  else
    none

/-- The mutating suffix of the vote handler (`src/main.py` lines 138-154):
insert the vote record first, then parse `item_id` as an ObjectId (HTTP 400
on failure — after the insert), then `$inc` the item counters (HTTP 404 when
no document matched — the vote record remains), and finally re-read and
return the item. -/
def voteWritePhase (now : Nat) (db : DB) (item_id : String) (req : VoteRequest) :
    Except VoteError (String × Item) × DB :=
  let db1 : DB := { db with votes := db.votes ++ [mkVoteRecord item_id req] }
  if isValidObjectId item_id then
    let r := updateItems db1.items item_id (applyInc req.direction now)
    if r.2 == 0 then
      (Except.error VoteError.itemNotFound, { db1 with items := r.1 })
    else
      let db2 : DB := { db1 with items := r.1 }
      match db2.items.find? (fun pr => pr.1 == item_id) with
      | some pr => (Except.ok pr, db2)
      | none => (Except.error VoteError.itemNotFound, db2)
  else
    (Except.error VoteError.invalidId, db1)

/-- Handler of `POST /api/items/{id}/vote` (`vote_item` in `src/main.py`):
the check phase followed, when it raises nothing, by the write phase. -/
def vote_item (now : Nat) (db : DB) (item_id : String) (req : VoteRequest) :
    Except VoteError (String × Item) × DB :=
  match voteCheckPhase db item_id req with
  | some e => (Except.error e, db)
  | none => voteWritePhase now db item_id req

/-- An item document projected to the public JSON shape: `_id` popped into
the `id` field (`it["id"] = str(it.pop("_id"))`). -/
structure PublicItem where
  id : String
  title : String
  category : String
  description : Option String
  image : Option String
  link : Option String
  upvotes : Nat
  downvotes : Nat
  score : Int
  created_at : Nat
  updated_at : Nat
deriving Repr, DecidableEq

/-- The `_id`-to-`id` projection applied by the list, get, vote and stats
handlers. -/
def project (pr : String × Item) : PublicItem :=
  ⟨pr.1, pr.2.title, pr.2.category, pr.2.description, pr.2.image, pr.2.link,
    pr.2.upvotes, pr.2.downvotes, pr.2.score, pr.2.created_at, pr.2.updated_at⟩

/-- The single sort field `list_items` passes to the storage sort: `sort`
equal to "newest" picks `created_at`, "most" picks `upvotes`, anything else
(including the default "trending") picks `score`; always descending, and no
secondary key is given. -/
def sortField (sort : String) : String :=
  if sort == "newest" then "created_at"
  else if sort == "most" then "upvotes"
  else "score"

/-- Numeric value of the named sort field of an item. -/
def fieldKey (field : String) (it : Item) : Int :=
  if field == "created_at" then (it.created_at : Int)
  else if field == "upvotes" then (it.upvotes : Int)
  else it.score

/-- The storage sort, descending on one numeric key. Modelled as a stable
merge sort over insertion order. -/
def sortDescBy (key : Item → Int) (l : List (String × Item)) : List (String × Item) :=
  l.mergeSort (fun a b => decide (key b.2 ≤ key a.2))

/-- The query filter of `GET /api/items`: restrict to one category when the
query parameter is supplied (`if category: q["category"] = category`). -/
def categoryFilter (db : DB) (category : Option String) : List (String × Item) :=
  match category with
  | some c => db.items.filter (fun pr => pr.2.category == c)
  | none => db.items

/-- Handler of `GET /api/items` (`list_items` in `src/main.py`): filter by
category when one is supplied, sort descending by the single field chosen
from `sort`, and project `_id` to `id`. -/
def list_items (db : DB) (category : Option String) (sort : String) : List PublicItem :=
  (sortDescBy (fieldKey (sortField sort)) (categoryFilter db category)).map project

/-- The response of `GET /api/stats`. -/
structure StatsResponse where
  top : List PublicItem
  total_items : Nat
  total_votes : Nat
deriving Repr, DecidableEq

/-- Handler of `GET /api/stats` (`stats` in `src/main.py`): top 5 items by
descending score (same single-key storage sort as listing), plus the two
collection counts at the read instant. -/
def stats (db : DB) : StatsResponse :=
  ⟨((sortDescBy (fun it => it.score) db.items).take 5).map project,
    db.items.length, db.votes.length⟩

/-- The identity-match predicate in the words of the specification (§4.1): a
stored vote matches the request identity iff its `session_id` equals the
request's non-empty `session_id` or its `user_id` equals the request's
non-empty `user_id`; an absent or empty component of either side never
matches. -/
def specIdentityMatch (req : VoteRequest) (v : Vote) : Prop :=
  (∃ s, req.session_id = some s ∧ s ≠ "" ∧ v.session_id = some s) ∨
  (∃ u, req.user_id = some u ∧ u ≠ "" ∧ v.user_id = some u)

/-- Database states reachable through item creation and the vote endpoint,
starting from empty storage (the only writers in `src/main.py`). -/
inductive Reachable : DB → Prop where
  | init : Reachable DB.empty
  | create (db : DB) (now : Nat) (newId : String) (p : ItemCreate) :
      Reachable db → Reachable (create_item now newId db p).2
  | vote (db : DB) (now : Nat) (item_id : String) (req : VoteRequest) :
      Reachable db → Reachable (vote_item now db item_id req).2

/-- The derived-score invariant of the specification (§3, §8): every stored
item's `score` equals its `upvotes` minus its `downvotes`. -/
def scoreInvariant (db : DB) : Prop :=
  ∀ pr ∈ db.items, pr.2.score = (pr.2.upvotes : Int) - (pr.2.downvotes : Int)

/-- Concrete fixture: a well-formed ObjectId string. -/
def wOid : String := "aaaaaaaaaaaaaaaaaaaaaaaa"

/-- Concrete fixture: a second, distinct well-formed ObjectId string. -/
def wOidB : String := "bbbbbbbbbbbbbbbbbbbbbbbb"

/-- Concrete fixture: a valid item-creation payload. -/
def wCreate : ItemCreate := ⟨"Rust", "tools", none, none, none⟩

/-- Concrete fixture: a second valid item-creation payload. -/
def wCreate2 : ItemCreate := ⟨"Vim", "tools", none, none, none⟩

/-- Concrete fixture: a payload whose category is outside the allowed set. -/
def wBogus : ItemCreate := ⟨"Thing", "bogus", none, none, none⟩

/-- Concrete fixture: a payload with an empty title and non-URL `image` and
`link` strings (everything the spec says validation must reject, except the
category, which is valid). -/
def wBadCreate : ItemCreate := ⟨"", "tools", none, some "not a url", some "also not a url"⟩

/-- Concrete fixture: an up-vote carrying only a session identity. -/
def wReqUp : VoteRequest := ⟨"up", some "s1", none⟩

/-- Concrete fixture: a vote request whose identity components are an empty
string and `None` — both falsy. -/
def wReqNoId : VoteRequest := ⟨"up", some "", none⟩

/-- Concrete fixture: a stored vote by session `s1` on the fixture item. -/
def wVote : Vote := ⟨wOid, "up", some "s1", none⟩

/-- Concrete fixture: the fixture item document, freshly created. -/
def wItem : Item := ⟨"Rust", "tools", none, none, none, 0, 0, 0, 0, 0⟩

/-- Concrete fixture: a store holding the single fixture item and no votes. -/
def wDB1 : DB := ⟨[(wOid, wItem)], []⟩

/-- Concrete fixture: `wDB1` with the `s1` vote already recorded. -/
def wDBdup : DB := ⟨[(wOid, wItem)], [wVote]⟩

/-- Concrete fixture: a store with two items of distinct creation times and
scores. -/
def wDB2 : DB :=
  ⟨[(wOid, wItem), (wOidB, ⟨"Vim", "tools", none, none, none, 3, 1, 2, 7, 7⟩)], []⟩

/-- The code's duplicate filter agrees with the specification's description
of identity matching, conjoined with the `item_id` equality. -/
theorem voteMatchesFilter_iff (iid : String) (req : VoteRequest) (v : Vote) :
    voteMatchesFilter iid req v = true ↔ v.item_id = iid ∧ specIdentityMatch req v := by
  unfold voteMatchesFilter specIdentityMatch
  cases hs : req.session_id with
  | none =>
    cases hu : req.user_id with
    | none => simp [pyTruthy]
    | some u => simp [pyTruthy]
  | some s =>
    cases hu : req.user_id with
    | none => simp [pyTruthy]
    | some u => simp [pyTruthy, and_assoc]

/-- When no item carries the sought id, `update_one` rewrites nothing and
reports a matched count of zero. -/
theorem updateItems_eq_self (items : List (String × Item)) (id : String) (f : Item → Item)
    (h : ∀ pr ∈ items, pr.1 ≠ id) : updateItems items id f = (items, 0) := by
  induction items with
  | nil => rfl
  | cons hd tl ih =>
    obtain ⟨i, it⟩ := hd
    have hi : ¬(i == id) = true := by
      simp only [beq_iff_eq]
      exact h (i, it) (List.mem_cons_self _ _)
    simp only [updateItems, if_neg hi,
      ih (fun pr hpr => h pr (List.mem_cons_of_mem _ hpr))]

/-- Every document in the collection after `update_one` is either an
untouched old document or the image under the update of an old document. -/
theorem updateItems_mem (items : List (String × Item)) (id : String) (f : Item → Item) :
    ∀ pr ∈ (updateItems items id f).1, pr ∈ items ∨ ∃ q ∈ items, pr = (q.1, f q.2) := by
  induction items with
  | nil => intro pr hpr; simp [updateItems] at hpr
  | cons hd tl ih =>
    obtain ⟨i, it⟩ := hd
    intro pr hpr
    simp only [updateItems] at hpr
    by_cases h : (i == id) = true
    · rw [if_pos h] at hpr
      rcases List.mem_cons.mp hpr with h1 | h1
      · exact Or.inr ⟨(i, it), List.mem_cons_self _ _, by rw [h1]⟩
      · exact Or.inl (List.mem_cons_of_mem _ h1)
    · rw [if_neg h] at hpr
      rcases List.mem_cons.mp hpr with h1 | h1
      · exact Or.inl (h1 ▸ List.mem_cons_self _ _)
      · rcases ih pr h1 with h2 | ⟨q, hq, h3⟩
        · exact Or.inl (List.mem_cons_of_mem _ h2)
        · exact Or.inr ⟨q, List.mem_cons_of_mem _ hq, h3⟩

/-- The counter update keeps `score = upvotes - downvotes` whichever
direction is applied. -/
theorem applyInc_score (d : String) (now : Nat) (it : Item)
    (h : it.score = (it.upvotes : Int) - (it.downvotes : Int)) :
    (applyInc d now it).score =
      ((applyInc d now it).upvotes : Int) - ((applyInc d now it).downvotes : Int) := by
  unfold applyInc
  by_cases hd : (d == "up") = true <;> simp [hd] <;> omega

/-- The items collection after a vote request is either untouched or the
result of the single `$inc` update. -/
theorem vote_item_items_cases (now : Nat) (db : DB) (iid : String) (req : VoteRequest) :
    (vote_item now db iid req).2.items = db.items ∨
    (vote_item now db iid req).2.items = (updateItems db.items iid (applyInc req.direction now)).1 := by
  unfold vote_item
  cases voteCheckPhase db iid req with
  | some e => exact Or.inl rfl
  | none =>
    unfold voteWritePhase
    by_cases hv : isValidObjectId iid = true
    · simp only [hv, if_true]
      by_cases hz : ((updateItems db.items iid (applyInc req.direction now)).2 == 0) = true
      · simp only [hz, if_true]
        right; trivial
      · simp only [hz, if_false]
        cases hf : List.find? (fun pr => pr.1 == iid)
            (updateItems db.items iid (applyInc req.direction now)).1 with
        | none => simp only [hf]; right; trivial
        | some pr => simp only [hf]; right; trivial
    · simp only [hv, if_false]
      exact Or.inl rfl

/-- C1: at every database state reachable through item creation and the vote
endpoint, every stored item's `score` equals its `upvotes` minus its
`downvotes` — creation starts all three counters at 0 and each accepted vote
moves `score` together with the voted counter. -/
theorem C1_score_invariant_reachable (db : DB) (h : Reachable db) : scoreInvariant db := by
  induction h with
  | init => intro pr hpr; simp [DB.empty] at hpr
  | create db now newId p hdb ih =>
    intro pr hpr
    unfold create_item at hpr
    by_cases hv : validItemCreate p = true
    · rw [if_pos hv] at hpr
      simp only [List.mem_append, List.mem_singleton] at hpr
      rcases hpr with hmem | heq
      · exact ih pr hmem
      · rw [heq]; simp [mkItem]
    · rw [if_neg hv] at hpr
      exact ih pr hpr
  | vote db now iid req hdb ih =>
    intro pr hpr
    rcases vote_item_items_cases now db iid req with hc | hc
    · rw [hc] at hpr; exact ih pr hpr
    · rw [hc] at hpr
      rcases updateItems_mem db.items iid (applyInc req.direction now) pr hpr with hm | ⟨q, hq, heq⟩
      · exact ih pr hm
      · rw [heq]
        exact applyInc_score _ _ _ (ih q hq)

/-- C1 witness: the invariant at the concrete state reached by creating one
item and accepting one up-vote on it. -/
theorem C1_witness :
    scoreInvariant (vote_item 1 (create_item 0 wOid DB.empty wCreate).2 wOid wReqUp).2 :=
  C1_score_invariant_reachable _
    (Reachable.vote (create_item 0 wOid DB.empty wCreate).2 1 wOid wReqUp
      (Reachable.create DB.empty 0 wOid wCreate Reachable.init))

/-- The boolean guard of the identity check is false as soon as one
component is truthy. -/
theorem identityGuard_false (req : VoteRequest)
    (hid : pyTruthy req.session_id = true ∨ pyTruthy req.user_id = true) :
    (!pyTruthy req.session_id && !pyTruthy req.user_id) = false := by
  rcases hid with h | h <;> simp [h]

/-- C2: a vote request with a valid identity that matches an already stored
vote on the same item — matching in the specification's sense: some
non-empty component of the request equals the same component of the stored
vote — fails with DuplicateVote and leaves the database unchanged (no vote
inserted, no counter touched). -/
theorem C2_duplicate_rejected (now : Nat) (db : DB) (iid : String) (req : VoteRequest)
    (hid : pyTruthy req.session_id = true ∨ pyTruthy req.user_id = true)
    (hdup : ∃ v ∈ db.votes, v.item_id = iid ∧ specIdentityMatch req v) :
    vote_item now db iid req = (Except.error VoteError.duplicate, db) := by
  have hfind : (db.votes.find? (voteMatchesFilter iid req)).isSome = true := by
    rw [List.find?_isSome]
    obtain ⟨v, hv, h1, h2⟩ := hdup
    exact ⟨v, hv, (voteMatchesFilter_iff iid req v).mpr ⟨h1, h2⟩⟩
  simp [vote_item, voteCheckPhase, identityGuard_false req hid, hfind]

/-- C2 witness: the concrete store already holding the `s1` vote rejects a
second `s1` vote on the same item and is left untouched. -/
theorem C2_witness :
    vote_item 5 wDBdup wOid wReqUp = (Except.error VoteError.duplicate, wDBdup) :=
  C2_duplicate_rejected 5 wDBdup wOid wReqUp (Or.inl (by decide))
    ⟨wVote, by decide, by decide, Or.inl ⟨"s1", rfl, by decide, rfl⟩⟩

/-- C3: the duplicate-check-then-insert-then-increment sequence is not
serialized: when two requests with the identical identity and item both run
their read-only check phase against the same state before either write phase
commits, both pass the check (no error) and both writes are accepted,
leaving two stored votes matching the one identity and `upvotes = 2` — the
claim requires exactly one acceptance and one DuplicateVote. The handler is
by definition the check phase followed by the write phase, so this
interleaving is available to two overlapping requests. -/
theorem C3_vote_race_code_bug :
    voteCheckPhase wDB1 wOid wReqUp = none ∧
    (voteWritePhase 1 wDB1 wOid wReqUp).1.isOk = true ∧
    (voteWritePhase 2 (voteWritePhase 1 wDB1 wOid wReqUp).2 wOid wReqUp).1.isOk = true ∧
    ((voteWritePhase 2 (voteWritePhase 1 wDB1 wOid wReqUp).2 wOid wReqUp).2.votes.filter
        (voteMatchesFilter wOid wReqUp)).length = 2 ∧
    ((voteWritePhase 2 (voteWritePhase 1 wDB1 wOid wReqUp).2 wOid wReqUp).2.items.map
        (fun pr => pr.2.upvotes)) = [2] := by
  decide

/-- C4: a vote request whose `session_id` and `user_id` are both absent or
empty fails with the missing-identity error (HTTP 400) before any write: no
vote record is created and the items are untouched. -/
theorem C4_missing_identity (now : Nat) (db : DB) (iid : String) (req : VoteRequest)
    (h1 : pyTruthy req.session_id = false) (h2 : pyTruthy req.user_id = false) :
    vote_item now db iid req = (Except.error VoteError.missingIdentity, db) := by
  simp [vote_item, voteCheckPhase, h1, h2]

/-- C4 witness: an empty-string session and absent user id are rejected with
the database unchanged. -/
theorem C4_witness :
    vote_item 1 wDB1 wOid wReqNoId = (Except.error VoteError.missingIdentity, wDB1) :=
  C4_missing_identity 1 wDB1 wOid wReqNoId (by decide) (by decide)

/-- C5: a vote request that passes the identity and duplicate checks but
whose well-formed `item_id` matches no stored item fails with ItemNotFound
(HTTP 404), and the vote record inserted just before remains in the votes
collection — no rollback. -/
theorem C5_item_gone_no_rollback (now : Nat) (db : DB) (iid : String) (req : VoteRequest)
    (hid : pyTruthy req.session_id = true ∨ pyTruthy req.user_id = true)
    (hnodup : ¬∃ v ∈ db.votes, v.item_id = iid ∧ specIdentityMatch req v)
    (hvalid : isValidObjectId iid = true)
    (hmiss : ∀ pr ∈ db.items, pr.1 ≠ iid) :
    vote_item now db iid req =
      (Except.error VoteError.itemNotFound,
        { db with votes := db.votes ++ [mkVoteRecord iid req] }) := by
  have hfind : db.votes.find? (voteMatchesFilter iid req) = none := by
    rw [List.find?_eq_none]
    intro v hv hmatch
    exact hnodup ⟨v, hv, (voteMatchesFilter_iff iid req v).mp hmatch⟩
  have hupd : updateItems db.items iid (applyInc req.direction now) = (db.items, 0) :=
    updateItems_eq_self _ _ _ hmiss
  simp [vote_item, voteCheckPhase, identityGuard_false req hid, hfind,
    voteWritePhase, hvalid, hupd]

/-- C5 witness: an up-vote on a well-formed but unknown ObjectId answers 404
while the vote record it inserted stays stored. -/
theorem C5_witness :
    vote_item 3 wDB1 wOidB wReqUp =
      (Except.error VoteError.itemNotFound,
        { wDB1 with votes := wDB1.votes ++ [mkVoteRecord wOidB wReqUp] }) :=
  C5_item_gone_no_rollback 3 wDB1 wOidB wReqUp (Or.inl (by decide))
    (by simp [wDB1]) (by decide) (by decide)

/-- C6 counterexample: the claim says an empty title or a non-URL `image` or
`link` is rejected with 422 and nothing persisted, but the handler's request
model constrains only the category, so this payload — empty title, `image`
and `link` plain non-URL strings, valid category — is accepted and
persisted, and its id is returned. -/
theorem C6_counterexample :
    create_item 0 "id0" DB.empty wBadCreate =
      (Except.ok "id0", ⟨[("id0", mkItem wBadCreate 0)], []⟩) ∧
    wBadCreate.title = "" ∧
    wBadCreate.image = some "not a url" ∧
    wBadCreate.link = some "also not a url" :=
  ⟨rfl, rfl, rfl, rfl⟩

/-- C6 (amended): item creation fails with ValidationError (HTTP 422) and
persists no document exactly when the category is outside
\x7bwebsites, tools, apps, ideas, misc\x7d; the title (possibly empty) and the
optional `image`/`link` strings (whether or not they are URLs) are accepted
as given, and on success the handler assigns the id, stores the document
with `upvotes = downvotes = score = 0`, and returns the id. -/
theorem C6_create_validation (now : Nat) (newId : String) (db : DB) (p : ItemCreate) :
    (allowedCategories.contains p.category = true →
      create_item now newId db p =
        (Except.ok newId, { db with items := db.items ++ [(newId, mkItem p now)] }) ∧
      (mkItem p now).upvotes = 0 ∧ (mkItem p now).downvotes = 0 ∧ (mkItem p now).score = 0) ∧
    (allowedCategories.contains p.category = false →
      create_item now newId db p = (Except.error CreateError.validationError, db)) := by
  constructor <;> intro h
  · have h2 : p.category ∈ allowedCategories := by simpa using h
    simp [create_item, validItemCreate, h2, mkItem]
  · have h2 : p.category ∉ allowedCategories := by simpa using h
    simp [create_item, validItemCreate, h2, mkItem]

/-- C6 witness: a valid payload is persisted with zeroed counters and its id
returned; a payload with category "bogus" is rejected with nothing stored. -/
theorem C6_witness :
    (create_item 7 "cid" DB.empty wCreate =
      (Except.ok "cid", { DB.empty with items := DB.empty.items ++ [("cid", mkItem wCreate 7)] })) ∧
    create_item 7 "cid" DB.empty wBogus = (Except.error CreateError.validationError, DB.empty) :=
  ⟨((C6_create_validation 7 "cid" DB.empty wCreate).1 (by decide)).1,
   (C6_create_validation 7 "cid" DB.empty wBogus).2 (by decide)⟩

/-- The storage sort really sorts: consecutive results are descending in the
key. -/
theorem sortDescBy_pairwise (key : Item → Int) (l : List (String × Item)) :
    (sortDescBy key l).Pairwise (fun a b => key b.2 ≤ key a.2) := by
  unfold sortDescBy
  refine (List.sorted_mergeSort ?_ ?_ l).imp ?_
  · intro a b c hab hbc
    simp only [decide_eq_true_eq] at hab hbc ⊢
    exact le_trans hbc hab
  · intro a b
    rcases le_total (key b.2) (key a.2) with h | h <;> simp [h]
  · intro a b h
    simpa using h

/-- The storage sort returns a permutation of its input. -/
theorem sortDescBy_perm (key : Item → Int) (l : List (String × Item)) :
    (sortDescBy key l).Perm l :=
  List.mergeSort_perm l _

/-- C7: listing returns the category-filtered items projected to the public
shape, as a permutation; ordered descending by `created_at` under sort mode
"newest", by `upvotes` under "most", and by `score` under "trending" and
under every other mode (the default). -/
theorem C7_list_items_ordering (db : DB) (category : Option String) (sort : String) :
    (sort = "newest" →
      (list_items db category sort).Pairwise (fun a b => b.created_at ≤ a.created_at)) ∧
    (sort = "most" →
      (list_items db category sort).Pairwise (fun a b => b.upvotes ≤ a.upvotes)) ∧
    (sort ≠ "newest" → sort ≠ "most" →
      (list_items db category sort).Pairwise (fun a b => b.score ≤ a.score)) ∧
    (list_items db category sort).Perm ((categoryFilter db category).map project) := by
  refine ⟨?_, ?_, ?_, ?_⟩
  · intro hs; subst hs
    unfold list_items
    refine (sortDescBy_pairwise (fieldKey (sortField "newest")) (categoryFilter db category)).map
      project ?_
    intro a b hab
    simpa [project, fieldKey, sortField] using hab
  · intro hs; subst hs
    unfold list_items
    refine (sortDescBy_pairwise (fieldKey (sortField "most")) (categoryFilter db category)).map
      project ?_
    intro a b hab
    simpa [project, fieldKey, sortField] using hab
  · intro h1 h2
    unfold list_items
    refine (sortDescBy_pairwise (fieldKey (sortField sort)) (categoryFilter db category)).map
      project ?_
    intro a b hab
    simpa [project, fieldKey, sortField, h1, h2] using hab
  · exact (sortDescBy_perm _ _).map project

/-- C7 witness: on a concrete two-item store the "newest" listing is
descending in creation time, an unknown mode falls back to score order, and
"trending" output is a permutation of the projected store. -/
theorem C7_witness :
    (list_items wDB2 none "newest").Pairwise (fun a b => b.created_at ≤ a.created_at) ∧
    (list_items wDB2 none "hot").Pairwise (fun a b => b.score ≤ a.score) ∧
    (list_items wDB2 none "trending").Perm ((categoryFilter wDB2 none).map project) :=
  ⟨(C7_list_items_ordering wDB2 none "newest").1 rfl,
   (C7_list_items_ordering wDB2 none "hot").2.2.1 (by decide) (by decide),
   (C7_list_items_ordering wDB2 none "trending").2.2.2⟩

/-- C9: the stats endpoint reports the exact collection counts and a top
list that is the first five of the score-descending ordering of all items:
it is descending in score, has length `min 5 (number of items)`, and
together with the projections of the items it drops it is a permutation of
the whole projected store, every dropped item scoring no higher than any
listed one. -/
theorem C9_stats_top5 (db : DB) :
    (stats db).total_items = db.items.length ∧
    (stats db).total_votes = db.votes.length ∧
    (stats db).top.Pairwise (fun a b => b.score ≤ a.score) ∧
    (stats db).top.length = min 5 db.items.length ∧
    ((stats db).top ++
        ((sortDescBy (fun it => it.score) db.items).drop 5).map project).Perm
      (db.items.map project) ∧
    (∀ a ∈ (stats db).top, ∀ b ∈ (sortDescBy (fun it => it.score) db.items).drop 5,
      b.2.score ≤ a.score) := by
  have hsorted := sortDescBy_pairwise (fun it => it.score) db.items
  have hperm := sortDescBy_perm (fun it => it.score) db.items
  refine ⟨rfl, rfl, ?_, ?_, ?_, ?_⟩
  · unfold stats
    refine ((hsorted.sublist (List.take_sublist 5 _)).map project ?_)
    intro a b hab
    simpa [project] using hab
  · have hlen : (sortDescBy (fun it => it.score) db.items).length = db.items.length :=
      hperm.length_eq
    simp [stats, List.length_take, hlen, Nat.min_comm]
  · show (((sortDescBy (fun it => it.score) db.items).take 5).map project ++
        ((sortDescBy (fun it => it.score) db.items).drop 5).map project).Perm _
    rw [← List.map_append, List.take_append_drop]
    exact hperm.map project
  · intro a ha b hb
    have hsplit : ((sortDescBy (fun it => it.score) db.items).take 5).Pairwise
        (fun x y => (fun it => it.score) y.2 ≤ (fun it => it.score) x.2) ∧
        ((sortDescBy (fun it => it.score) db.items).drop 5).Pairwise
          (fun x y => (fun it => it.score) y.2 ≤ (fun it => it.score) x.2) ∧
        ∀ x ∈ (sortDescBy (fun it => it.score) db.items).take 5,
          ∀ y ∈ (sortDescBy (fun it => it.score) db.items).drop 5, y.2.score ≤ x.2.score := by
      refine List.pairwise_append.mp ?_
      rw [List.take_append_drop]
      exact hsorted
    obtain ⟨a1, ha1, rfl⟩ := List.mem_map.mp ha
    exact hsplit.2.2 a1 ha1 b hb

/-- C9 witness: the stats response on the concrete two-item store, obtained
from the theorem at that store. -/
theorem C9_witness :
    (stats wDB2).total_items = wDB2.items.length ∧
    (stats wDB2).total_votes = wDB2.votes.length ∧
    (stats wDB2).top.Pairwise (fun a b => b.score ≤ a.score) ∧
    (stats wDB2).top.length = min 5 wDB2.items.length ∧
    ((stats wDB2).top ++
        ((sortDescBy (fun it => it.score) wDB2.items).drop 5).map project).Perm
      (wDB2.items.map project) ∧
    (∀ a ∈ (stats wDB2).top, ∀ b ∈ (sortDescBy (fun it => it.score) wDB2.items).drop 5,
      b.2.score ≤ a.score) :=
  C9_stats_top5 wDB2

/-- C10: a vote request with a valid identity, no previously stored matching
vote, and a syntactically malformed `item_id` first inserts the vote record
(on the raw string id) and only then fails with the invalid-id error (HTTP
400), raised when `oid` parses the id at the counter-update step — so a
400-invalid-id response does not imply that no vote record was created. -/
theorem C10_invalid_id_after_insert (now : Nat) (db : DB) (iid : String) (req : VoteRequest)
    (hid : pyTruthy req.session_id = true ∨ pyTruthy req.user_id = true)
    (hnodup : ¬∃ v ∈ db.votes, v.item_id = iid ∧ specIdentityMatch req v)
    (hbad : isValidObjectId iid = false) :
    vote_item now db iid req =
      (Except.error VoteError.invalidId,
        { db with votes := db.votes ++ [mkVoteRecord iid req] }) := by
  have hfind : db.votes.find? (voteMatchesFilter iid req) = none := by
    rw [List.find?_eq_none]
    intro v hv hmatch
    exact hnodup ⟨v, hv, (voteMatchesFilter_iff iid req v).mp hmatch⟩
  simp [vote_item, voteCheckPhase, identityGuard_false req hid, hfind,
    voteWritePhase, hbad]

/-- C10 witness: voting on the malformed id "notanobjectid" stores the vote
record and then answers invalid id. -/
theorem C10_witness :
    vote_item 1 wDB1 "notanobjectid" wReqUp =
      (Except.error VoteError.invalidId,
        { wDB1 with votes := wDB1.votes ++ [mkVoteRecord "notanobjectid" wReqUp] }) :=
  C10_invalid_id_after_insert 1 wDB1 "notanobjectid" wReqUp (Or.inl (by decide))
    (by simp [wDB1]) (by decide)

end VotingApp
